/-
Verification of the TripAdvisor sync scheduler (scheduler.ts) against its
natural-language specification.

The embedding models the scheduler's state-mutating operations as pure
functions over an explicit store state.  External collaborators (the
Supabase record store and the worker dispatch endpoint) are modelled by
oracle flags describing, per operation, whether the call succeeds or
fails, since the scheduler only branches on success/failure of those
calls.  Time (`new Date()`) is modelled as a `Nat` count of seconds kept
in the store state; ISO-8601 string comparison on equal-format timestamps
coincides with numeric comparison of those counts.
-/
import Mathlib

namespace SyncScheduler

/-- Job status enum of `review_sync_jobs.status`:
`'pending' | 'running' | 'completed' | 'failed'`. -/
inductive JobStatus where
  | pending
  | running
  | completed
  | failed
deriving DecidableEq, Repr

open JobStatus

/-- A row of the `review_sync_jobs` table, with the columns the scheduler
reads or writes.  Timestamps are seconds since the epoch. -/
structure SyncJob where
  id : Nat
  tour_operator_id : String
  platform : String
  status : JobStatus
  full_history : Bool
  total_available : Nat
  imported_count : Nat
  created_at : Nat
  started_at : Option Nat
  completed_at : Option Nat
  error : Option String
deriving DecidableEq, Repr

/-- A row of the `profiles` table, with the columns the scheduler queries.
`tripadvisor_location_id` and `tripadvisor_url_locked_at` are nullable in
the store (the scheduler filters on them being non-null). -/
structure Profile where
  user_id : String
  company_name : String
  tripadvisor_location_id : Option String
  tripadvisor_url_locked_at : Option Nat
  last_tripadvisor_sync_at : Option Nat
  timezone : Option String
deriving DecidableEq, Repr

/-- The record store visible to the scheduler: the two tables, a fresh id
counter for inserted job rows, and the current clock (`new Date()`). -/
structure StoreState where
  profiles : List Profile
  jobs : List SyncJob
  nextId : Nat
  now : Nat
deriving DecidableEq, Repr

/-- Source function `chunkArray(array, size)`: `for (let i = 0; i < array.length; i += size)
chunks.push(array.slice(i, i + size))`.  Each loop iteration takes the next
`size` elements; the guard `size = 0` mirrors the loop never terminating
for `size = 0` on nonempty input — the scheduler only calls it with
`size = 5`.  The recursion is driven by a fuel argument initialised to the
array length, which always suffices since each step drops at least one
element; this keeps the definition computable by the kernel. -/
def chunkAux : Nat → List α → Nat → List (List α)
  | _, [], _ => []
  | _, _, 0 => []
  | 0, _ :: _, _ + 1 => []
  | fuel + 1, a :: as, size + 1 =>
      (a :: as).take (size + 1) :: chunkAux fuel ((a :: as).drop (size + 1)) (size + 1)

def chunkArray (array : List α) (size : Nat) : List (List α) :=
  chunkAux array.length array size

/-- A job status counts as active when it is in `{pending, running}` —
the statuses the dedup query filters on with
`.in('status', ['pending', 'running'])`. -/
def JobStatus.isActive : JobStatus → Bool
  | pending => true
  | running => true
  | completed => false
  | failed => false

/-- The rows the dedup query matches:
`.eq('tour_operator_id', userId).eq('platform', 'tripadvisor')
 .in('status', ['pending', 'running'])`. -/
def activeJobsFor (jobs : List SyncJob) (userId : String) : List SyncJob :=
  jobs.filter fun j =>
    j.tour_operator_id = userId && j.platform = "tripadvisor" && j.status.isActive

/-- One step of selecting the row with the greatest `created_at`. -/
def latestStep (acc : Option SyncJob) (j : SyncJob) : Option SyncJob :=
  match acc with
  | none => some j
  | some k => if k.created_at < j.created_at then some j else some k

/-- Models `.order('created_at', { ascending: false }).limit(1).single()`:
the matching row with the greatest `created_at` (or none). -/
def latestByCreated (jobs : List SyncJob) : Option SyncJob :=
  jobs.foldl latestStep none

/-- Per-account oracle describing the outcome of each external call made
while dispatching one account: whether the dedup query against the store
errors, whether the job-row insert succeeds, and whether the worker
dispatch call succeeds. -/
structure AccountOracle where
  dedupErr : Bool
  insertOk : Bool
  workerOk : Bool
deriving DecidableEq, Repr

/-- Source function `getRunningJob(userId)`: queries `review_sync_jobs` for the latest
pending/running tripadvisor job of the user.  On any store error — an
error result with code other than `PGRST116`, or a thrown exception — the
code logs and returns `null`; a `PGRST116` (no rows) result also yields
`null`. -/
def getRunningJob (jobs : List SyncJob) (userId : String) (dedupErr : Bool) :
    Option SyncJob :=
  if dedupErr then none
  else latestByCreated (activeJobsFor jobs userId)

/-- Source function `createSyncJob(userId, fullHistory)`: inserts a row with
`status: 'pending'`, `full_history: fullHistory`, `total_available: 0`,
`imported_count: 0`, `started_at: new Date().toISOString()`.  `created_at`
is filled by the store at insert time.  On insert error the code logs and
returns `null`, leaving the store unchanged. -/
def createSyncJob (st : StoreState) (userId : String) (fullHistory : Bool)
    (insertOk : Bool) : Option SyncJob × StoreState :=
  if insertOk then
    let job : SyncJob :=
      { id := st.nextId
        tour_operator_id := userId
        platform := "tripadvisor"
        status := JobStatus.pending
        full_history := fullHistory
        total_available := 0
        imported_count := 0
        created_at := st.now
        started_at := some st.now
        completed_at := none
        error := none }
    (some job, { st with jobs := st.jobs ++ [job], nextId := st.nextId + 1 })
  else (none, st)

/-- Source function `markJobFailed(jobId, errorMessage)`: updates the row(s) with the given
id to `status: 'failed'`, recording the error message and `completed_at`. -/
def markJobFailed (st : StoreState) (jobId : Nat) (errorMessage : String) :
    StoreState :=
  { st with
    jobs := st.jobs.map fun j =>
      if j.id = jobId then
        { j with
          status := JobStatus.failed
          error := some errorMessage
          completed_at := some st.now }
      else j }

/-- Source function `syncAccount(account)` (the spec's `dispatchAccount`): dedup check,
then job creation, then worker dispatch; on worker failure the fresh job
is marked failed.  Every inner call catches its own errors, so the
surrounding try/catch never observes a throw here; the account is
identified by its profile row. -/
def syncAccount (o : AccountOracle) (account : Profile) (st : StoreState) :
    StoreState :=
  match getRunningJob st.jobs account.user_id o.dedupErr with
  | some _ => st
  | none =>
    match createSyncJob st account.user_id false o.insertOk with
    | (none, st1) => st1
    | (some job, st1) =>
      if o.workerOk then st1
      else markJobFailed st1 job.id "Failed to trigger worker sync"

/-- The eligibility filter of `getAccountsForSync()`:
`.not('tripadvisor_location_id', 'is', null)
 .not('tripadvisor_url_locked_at', 'is', null)`. -/
def eligibleProfiles (profiles : List Profile) : List Profile :=
  profiles.filter fun p =>
    p.tripadvisor_location_id ≠ none && p.tripadvisor_url_locked_at ≠ none

/-- Oracle for one full sweep: whether the account fetch succeeds (on
failure `getAccountsForSync` catches and returns `[]`), an optional batch
index at which an exception interrupts the batch loop and transfers
control to the sweep's catch block, and the per-account call outcomes. -/
structure SweepOracle where
  fetchOk : Bool
  throwAt : Option Nat
  perAccount : String → AccountOracle

/-- Scheduler state: the store plus the process-wide `isRunning` flag. -/
structure SchedState where
  store : StoreState
  isRunning : Bool

/-- What a sweep did, for stating frame/pacing properties: how many
account-fetch queries were issued, the user ids of each processed batch in
processing order, total milliseconds of pacing delay, and whether the
batch loop was interrupted by a thrown exception. -/
structure SweepLog where
  fetches : Nat
  batchLog : List (List String)
  sleepMs : Nat
  threw : Bool
deriving DecidableEq, Repr

/-- Models `batch.map(account => this.syncAccount(account))` awaited with
`Promise.allSettled`: every account in the batch is dispatched and every
dispatch settles; the joint effect on the store is the composition of the
per-account effects. -/
def processBatch (o : SweepOracle) (batch : List Profile) (st : StoreState) :
    StoreState :=
  batch.foldl (fun st a => syncAccount (o.perAccount a.user_id) a st) st

/-- The `for (let i = 0; i < batches.length; i++)` loop of `runDailySync`:
processes each batch in order and sleeps 30000 ms after every batch except
the last (`if (i < batches.length - 1) await this.sleep(30000)`).  If the
oracle throws at index `idx` the loop aborts before processing that batch
and control passes to the catch block. -/
def runBatchLoop (o : SweepOracle) (batches : List (List Profile)) (idx : Nat)
    (st : StoreState) : StoreState × List (List String) × Nat × Bool :=
  match batches with
  | [] => (st, [], 0, false)
  | b :: rest =>
    if o.throwAt = some idx then (st, [], 0, true)
    else
      let st1 := processBatch o b st
      let pause := if rest.isEmpty then 0 else 30000
      let r := runBatchLoop o rest (idx + 1) st1
      (r.1, b.map Profile.user_id :: r.2.1, pause + r.2.2.1, r.2.2.2)

/-- The state the sweep body runs on: `this.isRunning = true` is executed
before any account work begins. -/
def sweepBodyState (s : SchedState) : SchedState :=
  { s with isRunning := true }

/-- Source function `runDailySync()`: re-entrancy guard on `isRunning`, account fetch,
zero-accounts early return, chunking into batches of 5, the batch loop,
and a `finally` that clears `isRunning` on every exit path (early return,
normal completion, or a caught exception).  The catch block only logs
(`logSyncError` performs no store write). -/
def runDailySync (o : SweepOracle) (s : SchedState) : SchedState × SweepLog :=
  if s.isRunning then (s, { fetches := 0, batchLog := [], sleepMs := 0, threw := false })
  else
    let body := sweepBodyState s
    let accounts := if o.fetchOk then eligibleProfiles body.store.profiles else []
    if accounts.isEmpty then
      ({ body with isRunning := false },
       { fetches := 1, batchLog := [], sleepMs := 0, threw := false })
    else
      let batches := chunkArray accounts 5
      let r := runBatchLoop o batches 0 body.store
      ({ store := r.1, isRunning := false },
       { fetches := 1, batchLog := r.2.1, sleepMs := r.2.2.1, threw := r.2.2.2 })

/-- The scheduler's initial state: the instance field initializer
`private isRunning = false`. -/
def initialScheduler (st : StoreState) : SchedState :=
  { store := st, isRunning := false }

/-- The lookup of `triggerManualSync(userId)`:
`.eq('user_id', userId).not('tripadvisor_location_id', 'is', null)
 .single()` — `single()` yields the row when exactly one matches and an
error otherwise (in which case the code logs and returns). -/
def manualLookup (profiles : List Profile) (userId : String) : Option Profile :=
  match profiles.filter (fun p =>
      p.user_id = userId && p.tripadvisor_location_id ≠ none) with
  | [p] => some p
  | _ => none

/-- Source function `triggerManualSync(userId)` with an account id: look the account up
and run `syncAccount` on it directly.  The boolean records whether a
dispatch was performed. -/
def triggerManualSyncUser (o : AccountOracle) (userId : String)
    (st : StoreState) : StoreState × Bool :=
  match manualLookup st.profiles userId with
  | none => (st, false)
  | some account => (syncAccount o account st, true)

/-- The four counts returned by `getSyncStats()`. -/
structure SyncStats where
  totalAccounts : Nat
  activeJobs : Nat
  completedToday : Nat
  failedToday : Nat
deriving DecidableEq, Repr

/-- Source function `getSyncStats()`: `today = new Date().toISOString().split('T')[0]` is
the current UTC calendar date; the completed/failed counts filter on
`created_at` in `[today 00:00:00Z, today 23:59:59Z)` — `gte` on
`T00:00:00Z` and `lt` on `T23:59:59Z`, i.e. numerically
`[dayStart, dayStart + 86399)` in seconds. -/
def getSyncStats (st : StoreState) : SyncStats :=
  let dayStart := st.now / 86400 * 86400
  { totalAccounts := (st.profiles.filter fun p =>
      p.tripadvisor_location_id ≠ none && p.tripadvisor_url_locked_at ≠ none).length
    activeJobs := (st.jobs.filter fun j =>
      j.platform = "tripadvisor" && j.status.isActive).length
    completedToday := (st.jobs.filter fun j =>
      j.platform = "tripadvisor" && j.status = JobStatus.completed &&
        dayStart ≤ j.created_at && j.created_at < dayStart + 86399).length
    failedToday := (st.jobs.filter fun j =>
      j.platform = "tripadvisor" && j.status = JobStatus.failed &&
        dayStart ≤ j.created_at && j.created_at < dayStart + 86399).length }

/-- Modelled from the spec (§4.3, claim C8): "jobs completed today (UTC
calendar day)" — the count of tripadvisor jobs whose *completion* time
falls on the current UTC calendar day.  Stated for comparison with the
source's `getSyncStats`, which filters on `created_at` instead. -/
def specCompletedToday (jobs : List SyncJob) (now : Nat) : Nat :=
  let dayStart := now / 86400 * 86400
  (jobs.filter fun j =>
    j.platform = "tripadvisor" && j.status = JobStatus.completed &&
      (match j.completed_at with
       | some t => decide (dayStart ≤ t && t < dayStart + 86400)
       | none => false)).length

/- Properties of the source functions, one claim per doc-commented theorem. -/

theorem chunkAux_congr (fuel1 : Nat) :
    ∀ (fuel2 : Nat) (l : List α) (size : Nat), l.length ≤ fuel1 → l.length ≤ fuel2 →
      chunkAux fuel1 l size = chunkAux fuel2 l size := by
  induction fuel1 with
  | zero =>
    intro fuel2 l size h1 h2
    have : l = [] := List.length_eq_zero.mp (Nat.le_zero.mp h1)
    subst this
    cases fuel2 <;> cases size <;> rfl
  | succ f ih =>
    intro fuel2 l size h1 h2
    cases l with
    | nil => cases fuel2 <;> cases size <;> rfl
    | cons a as =>
      cases size with
      | zero => cases fuel2 <;> rfl
      | succ sz =>
        cases fuel2 with
        | zero =>
          simp only [List.length_cons] at h2
          omega
        | succ f2 =>
          simp only [chunkAux]
          congr 1
          apply ih
          · simp only [List.length_drop, List.length_cons] at h1 ⊢
            omega
          · simp only [List.length_drop, List.length_cons] at h2 ⊢
            omega

theorem chunkArray_nil (size : Nat) : chunkArray ([] : List α) size = [] := by
  cases size <;> rfl

theorem chunkArray_zero (array : List α) : chunkArray array 0 = [] := by
  cases array <;> rfl

theorem chunkArray_cons {array : List α} {size : Nat} (ha : array ≠ [])
    (hs : 0 < size) :
    chunkArray array size = array.take size :: chunkArray (array.drop size) size := by
  obtain ⟨a, as, rfl⟩ := List.exists_cons_of_ne_nil ha
  obtain ⟨s, rfl⟩ := Nat.exists_eq_succ_of_ne_zero (Nat.pos_iff_ne_zero.mp hs)
  show chunkAux (a :: as).length (a :: as) (s + 1) = _
  simp only [List.length_cons, chunkAux]
  congr 1
  apply chunkAux_congr
  · simp only [List.length_drop, List.length_cons]
    omega
  · exact Nat.le_refl _

theorem chunkArray_eq_nil_iff {array : List α} {size : Nat} (hs : 0 < size) :
    chunkArray array size = [] ↔ array = [] := by
  constructor
  · intro h
    by_contra hne
    rw [chunkArray_cons hne hs] at h
    exact List.cons_ne_nil _ _ h
  · intro h
    subst h
    exact chunkArray_nil size

/-- Concatenating the chunks gives back the original array. -/
theorem chunkArray_flatten (array : List α) (size : Nat) (hs : 0 < size) :
    (chunkArray array size).flatten = array := by
  by_cases ha : array = []
  · subst ha
    simp [chunkArray_nil]
  · rw [chunkArray_cons ha hs]
    have hlt : (array.drop size).length < array.length := by
      have : 0 < array.length := List.length_pos.mpr ha
      simp only [List.length_drop]
      omega
    rw [List.flatten_cons, chunkArray_flatten (array.drop size) size hs,
      List.take_append_drop]
termination_by array.length

/-- Every chunk has at most `size` elements. -/
theorem chunkArray_mem_length_le {array : List α} {size : Nat} (hs : 0 < size)
    {c : List α} (hc : c ∈ chunkArray array size) : c.length ≤ size := by
  by_cases ha : array = []
  · subst ha
    rw [chunkArray_nil] at hc
    cases hc
  · rw [chunkArray_cons ha hs] at hc
    rcases List.mem_cons.mp hc with h | h
    · subst h
      simp [List.length_take]
    · have hlt : (array.drop size).length < array.length := by
        have : 0 < array.length := List.length_pos.mpr ha
        simp only [List.length_drop]
        omega
      exact chunkArray_mem_length_le hs h
termination_by array.length

/-- Every chunk except possibly the last has exactly `size` elements. -/
theorem chunkArray_dropLast_length {array : List α} {size : Nat} (hs : 0 < size)
    {c : List α} (hc : c ∈ (chunkArray array size).dropLast) :
    c.length = size := by
  by_cases ha : array = []
  · subst ha
    rw [chunkArray_nil] at hc
    cases hc
  · rw [chunkArray_cons ha hs] at hc
    by_cases hd : array.drop size = []
    · rw [hd, chunkArray_nil] at hc
      cases hc
    · have hne : chunkArray (array.drop size) size ≠ [] :=
        fun h => hd ((chunkArray_eq_nil_iff hs).mp h)
      rw [List.dropLast_cons_of_ne_nil hne] at hc
      rcases List.mem_cons.mp hc with h | h
      · subst h
        have : size ≤ array.length := by
          by_contra hlen
          exact hd (List.drop_eq_nil_of_le (Nat.le_of_not_le hlen))
        simp [List.length_take, Nat.min_eq_left this]
      · have hlt : (array.drop size).length < array.length := by
          have : 0 < array.length := List.length_pos.mpr ha
          simp only [List.length_drop]
          omega
        exact chunkArray_dropLast_length hs h
termination_by array.length

theorem chunkArray_length_aux (array : List α) (size : Nat) (hs : 0 < size)
    (ha : array ≠ []) :
    (chunkArray array size).length = (array.length - 1) / size + 1 := by
  rw [chunkArray_cons ha hs]
  have hpos : 0 < array.length := List.length_pos.mpr ha
  by_cases hd : array.drop size = []
  · rw [hd, chunkArray_nil, List.length_cons, List.length_nil]
    have hle : array.length ≤ size := List.drop_eq_nil_iff.mp hd
    rw [Nat.div_eq_of_lt (by omega)]
  · have hlt : (array.drop size).length < array.length := by
      simp only [List.length_drop]
      omega
    have hgt : size < array.length := by
      by_contra hc
      exact hd (List.drop_eq_nil_of_le (Nat.le_of_not_lt hc))
    rw [List.length_cons, chunkArray_length_aux (array.drop size) size hs hd]
    simp only [List.length_drop]
    have heq : array.length - 1 - size = array.length - size - 1 := by omega
    have hstep : (array.length - 1) / size = (array.length - size - 1) / size + 1 := by
      rw [Nat.div_eq_sub_div hs (by omega), heq]
    omega
termination_by array.length

/-- The number of chunks is `ceil(length / size)`, computed as
`(length + size - 1) / size`. -/
theorem chunkArray_length (array : List α) (size : Nat) (hs : 0 < size) :
    (chunkArray array size).length = (array.length + size - 1) / size := by
  by_cases ha : array = []
  · subst ha
    rw [chunkArray_nil, List.length_nil, List.length_nil]
    rw [Nat.div_eq_of_lt (by omega)]
  · rw [chunkArray_length_aux array size hs ha]
    have hpos : 0 < array.length := List.length_pos.mpr ha
    have heq : array.length + size - 1 = (array.length - 1) + size := by omega
    rw [heq, Nat.add_div_right _ hs]

theorem latestStep_foldl_ne_none (l : List SyncJob) (j : SyncJob) :
    l.foldl latestStep (some j) ≠ none := by
  induction l generalizing j with
  | nil => simp
  | cons x xs ih =>
    simp only [List.foldl_cons, latestStep]
    split
    · exact ih x
    · exact ih j

theorem latestByCreated_eq_none_iff (l : List SyncJob) :
    latestByCreated l = none ↔ l = [] := by
  cases l with
  | nil => simp [latestByCreated]
  | cons x xs =>
    simp only [latestByCreated, List.foldl_cons]
    constructor
    · intro h
      exact absurd h (latestStep_foldl_ne_none xs x)
    · intro h
      cases h

theorem length_filter_map_le (f : α → α) (p : α → Bool)
    (hf : ∀ a, p (f a) = true → p a = true) (l : List α) :
    ((l.map f).filter p).length ≤ (l.filter p).length := by
  induction l with
  | nil => simp
  | cons x xs ih =>
    simp only [List.map_cons, List.filter_cons]
    by_cases hx : p (f x) = true
    · rw [if_pos hx, if_pos (hf x hx)]
      simpa using ih
    · rw [if_neg hx]
      split
      · exact Nat.le_trans ih (by simp)
      · exact ih

/-- C9: for every account list and every positive batch size, `chunkArray`
produces batches whose concatenation equals the input list, every batch
has at most `size` elements, and every batch except possibly the last has
exactly `size` elements — so each element appears in exactly one batch, in
the original order. -/
theorem chunkArray_partition_spec (array : List α) (size : Nat) (hs : 0 < size) :
    (chunkArray array size).flatten = array
    ∧ (∀ c ∈ chunkArray array size, c.length ≤ size)
    ∧ (∀ c ∈ (chunkArray array size).dropLast, c.length = size) :=
  ⟨chunkArray_flatten array size hs,
   fun _ hc => chunkArray_mem_length_le hs hc,
   fun _ hc => chunkArray_dropLast_length hs hc⟩

/-- Witness for C9 at a concrete 7-element list and batch size 5: the
chunks flatten back to the list, the chunk `[5, 6]` found in the output
is within the size bound, and the non-final chunk `[0, 1, 2, 3, 4]` has
exactly 5 elements. -/
theorem chunkArray_partition_spec_witness :
    (chunkArray [0, 1, 2, 3, 4, 5, 6] 5).flatten = [0, 1, 2, 3, 4, 5, 6]
    ∧ [5, 6].length ≤ 5
    ∧ [0, 1, 2, 3, 4].length = 5 :=
  ⟨(chunkArray_partition_spec [0, 1, 2, 3, 4, 5, 6] 5 (by decide)).1,
   (chunkArray_partition_spec [0, 1, 2, 3, 4, 5, 6] 5 (by decide)).2.1
     [5, 6] (by decide),
   (chunkArray_partition_spec [0, 1, 2, 3, 4, 5, 6] 5 (by decide)).2.2
     [0, 1, 2, 3, 4] (by decide)⟩

/-- C2: `isRunning` is false in the scheduler's initial state, is set to
true before any account work of a sweep begins, and is false again after
`runDailySync` returns from any sweep started with `isRunning = false` —
for every oracle, so including the zero-accounts early return, a failing
account fetch, and a batch loop interrupted by a thrown exception. -/
theorem isRunning_lifecycle (st : StoreState) (o : SweepOracle) (s : SchedState) :
    (initialScheduler st).isRunning = false
    ∧ (sweepBodyState s).isRunning = true
    ∧ (s.isRunning = false → (runDailySync o s).1.isRunning = false) := by
  refine ⟨rfl, rfl, fun h => ?_⟩
  simp only [runDailySync, h, Bool.false_eq_true, if_false]
  split <;> split <;> rfl

/-- Witness for C2: a sweep over a concrete store ends with the flag
cleared. -/
theorem isRunning_lifecycle_witness :
    (runDailySync
      { fetchOk := true, throwAt := none, perAccount := fun _ => ⟨false, true, true⟩ }
      (initialScheduler { profiles := [], jobs := [], nextId := 0, now := 0 })).1.isRunning
      = false :=
  (isRunning_lifecycle { profiles := [], jobs := [], nextId := 0, now := 0 } _ _).2.2 rfl

/-- C3: calling `runDailySync` while a sweep is in progress
(`isRunning = true`) is a no-op: the state (store included, so no job rows)
is unchanged, no account fetch is issued, no batch is processed, and no
pacing delay is taken. -/
theorem runDailySync_reentrancy_noop (o : SweepOracle) (s : SchedState)
    (h : s.isRunning = true) :
    runDailySync o s =
      (s, { fetches := 0, batchLog := [], sleepMs := 0, threw := false }) := by
  simp [runDailySync, h]

/-- Witness for C3 at a concrete in-progress state. -/
theorem runDailySync_reentrancy_noop_witness :
    runDailySync
      { fetchOk := true, throwAt := none, perAccount := fun _ => ⟨false, true, true⟩ }
      { store := { profiles := [], jobs := [], nextId := 0, now := 0 }, isRunning := true }
      = ({ store := { profiles := [], jobs := [], nextId := 0, now := 0 }, isRunning := true },
         { fetches := 0, batchLog := [], sleepMs := 0, threw := false }) :=
  runDailySync_reentrancy_noop _ _ rfl

/-- C7: a failing dedup-check query is treated as "no existing job found":
`getRunningJob` returns `none` rather than propagating the store error,
and `syncAccount` proceeds to job creation — when the insert succeeds, the
job table grows by exactly one row. -/
theorem dedup_check_fails_open :
    (∀ (jobs : List SyncJob) (u : String), getRunningJob jobs u true = none)
    ∧ (∀ (o : AccountOracle) (a : Profile) (st : StoreState),
        o.dedupErr = true → o.insertOk = true →
        (syncAccount o a st).jobs.length = st.jobs.length + 1) := by
  refine ⟨fun jobs u => rfl, fun o a st hde hins => ?_⟩
  simp only [syncAccount, getRunningJob, hde, if_true, createSyncJob, hins]
  split
  · simp
  · simp [markJobFailed]

/-- Witness for C7: with an erroring dedup query over a store already
holding a pending job for the same account, a second row is created. -/
theorem dedup_check_fails_open_witness :
    getRunningJob
      [⟨0, "u1", "tripadvisor", JobStatus.pending, false, 0, 0, 0, some 0, none, none⟩]
      "u1" true = none
    ∧ (syncAccount ⟨true, true, true⟩
        ⟨"u1", "Co", some "loc", some 1, none, none⟩
        ⟨[], [⟨0, "u1", "tripadvisor", JobStatus.pending, false, 0, 0, 0, some 0,
          none, none⟩], 1, 9⟩).jobs.length
      = 1 + 1 :=
  ⟨dedup_check_fails_open.1 _ "u1",
   dedup_check_fails_open.2 ⟨true, true, true⟩ _ _ rfl rfl⟩

/-- C10: every job row created via `createSyncJob` is initialized with
status `pending`, the passed `full_history` flag, counters
`total_available = 0` and `imported_count = 0`, and `started_at` set to
the creation timestamp; and every job row that `syncAccount` adds to the
store was created with `full_history = false` (sweeps are incremental) and
`started_at` populated at creation. -/
theorem createSyncJob_initialization :
    (∀ (st : StoreState) (u : String) (fh : Bool),
        (createSyncJob st u fh true).1 =
          some ⟨st.nextId, u, "tripadvisor", JobStatus.pending, fh, 0, 0, st.now,
            some st.now, none, none⟩)
    ∧ (∀ (o : AccountOracle) (a : Profile) (st : StoreState),
        (∀ j ∈ st.jobs, j.id < st.nextId) →
        ∀ j ∈ (syncAccount o a st).jobs, j ∉ st.jobs →
        j.full_history = false ∧ j.started_at = some st.now) := by
  refine ⟨fun st u fh => rfl, fun o a st hfresh j hj hnotin => ?_⟩
  unfold syncAccount at hj
  cases hrun : getRunningJob st.jobs a.user_id o.dedupErr with
  | some k =>
    rw [hrun] at hj
    exact absurd hj hnotin
  | none =>
    rw [hrun] at hj
    cases hins : o.insertOk with
    | false =>
      rw [hins] at hj
      simp only [createSyncJob, Bool.false_eq_true, if_false] at hj
      exact absurd hj hnotin
    | true =>
      rw [hins] at hj
      simp only [createSyncJob, if_true] at hj
      cases hw : o.workerOk with
      | true =>
        rw [hw] at hj
        simp only [if_true] at hj
        rcases List.mem_append.mp hj with hmem | hmem
        · exact absurd hmem hnotin
        · rcases List.mem_singleton.mp hmem with rfl
          exact ⟨rfl, rfl⟩
      | false =>
        rw [hw] at hj
        simp only [Bool.false_eq_true, if_false, markJobFailed, List.map_append] at hj
        rcases List.mem_append.mp hj with hmem | hmem
        · rcases List.mem_map.mp hmem with ⟨j0, hj0, hup⟩
          have hid : j0.id ≠ st.nextId := Nat.ne_of_lt (hfresh j0 hj0)
          rw [if_neg hid] at hup
          subst hup
          exact absurd hj0 hnotin
        · simp only [List.map_cons, List.map_nil, if_pos rfl] at hmem
          rcases List.mem_singleton.mp hmem with rfl
          exact ⟨rfl, rfl⟩

/-- Witness for C10 at a concrete dispatch from an empty job table with a
failing worker call: the marked-failed row still carries
`full_history = false` and `started_at` from its creation. -/
theorem createSyncJob_initialization_witness :
    (createSyncJob ⟨[], [], 3, 7⟩ "u1" true true).1 =
      some ⟨3, "u1", "tripadvisor", JobStatus.pending, true, 0, 0, 7, some 7, none, none⟩
    ∧ ((∀ j ∈ ([] : List SyncJob), j.id < 3)
       ∧ (⟨3, "u1", "tripadvisor", JobStatus.failed, false, 0, 0, 7, some 7, some 7,
            some "Failed to trigger worker sync"⟩ : SyncJob)
          ∈ (syncAccount ⟨false, true, false⟩ ⟨"u1", "Co", some "loc", some 1, none, none⟩
              ⟨[], [], 3, 7⟩).jobs
       ∧ (⟨3, "u1", "tripadvisor", JobStatus.failed, false, 0, 0, 7, some 7, some 7,
            some "Failed to trigger worker sync"⟩ : SyncJob) ∉ ([] : List SyncJob))
    ∧ (⟨3, "u1", "tripadvisor", JobStatus.failed, false, 0, 0, 7, some 7, some 7,
         some "Failed to trigger worker sync"⟩ : SyncJob).full_history = false
    ∧ (⟨3, "u1", "tripadvisor", JobStatus.failed, false, 0, 0, 7, some 7, some 7,
         some "Failed to trigger worker sync"⟩ : SyncJob).started_at = some 7 := by
  refine ⟨createSyncJob_initialization.1 ⟨[], [], 3, 7⟩ "u1" true,
    ⟨by simp, by decide, by simp⟩, ?_⟩
  exact createSyncJob_initialization.2 ⟨false, true, false⟩
    ⟨"u1", "Co", some "loc", some 1, none, none⟩ ⟨[], [], 3, 7⟩
    (by simp) _ (by decide) (by simp)

/-- Counterexample to C1 as stated: from a store holding exactly one
pending job for account `u1` (so the at-most-one-active invariant holds),
a `syncAccount` call whose dedup query fails treats the failure as "no
existing job" and creates a second job row, leaving two jobs for `u1`
with status in `{pending, running}` — the "at most one at any time"
invariant is violated when the dedup check errors. -/
theorem syncAccount_dedup_invariant_counterexample :
    (∀ u, (activeJobsFor
        [⟨0, "u1", "tripadvisor", JobStatus.pending, false, 0, 0, 0, some 0, none, none⟩]
        u).length ≤ 1)
    ∧ (activeJobsFor
        (syncAccount ⟨true, true, true⟩ ⟨"u1", "Co", some "loc", some 1, none, none⟩
          ⟨[], [⟨0, "u1", "tripadvisor", JobStatus.pending, false, 0, 0, 0, some 0,
            none, none⟩], 1, 5⟩).jobs
        "u1").length = 2 := by
  constructor
  · intro u
    exact Nat.le_trans (List.length_filter_le _ _) (by simp)
  · decide

/-- C1 (amended): whenever the dedup query finds an existing job with
status in `{pending, running}` for the account, `syncAccount` returns
without creating a new job row (the store is unchanged); and provided the
dedup query does not fail, `syncAccount` preserves the invariant that at
most one job per account has status in `{pending, running}`.  (When the
dedup query fails, the fail-open path of C7 can create a second active
job, so the unconditional "at any time" form does not hold.) -/
theorem syncAccount_dedup_invariant (o : AccountOracle) (a : Profile)
    (st : StoreState) :
    ((getRunningJob st.jobs a.user_id o.dedupErr).isSome = true →
      syncAccount o a st = st)
    ∧ (o.dedupErr = false →
      (∀ u, (activeJobsFor st.jobs u).length ≤ 1) →
      ∀ u, (activeJobsFor (syncAccount o a st).jobs u).length ≤ 1) := by
  constructor
  · intro h
    unfold syncAccount
    cases hrun : getRunningJob st.jobs a.user_id o.dedupErr with
    | some k => rfl
    | none =>
      rw [hrun] at h
      simp at h
  · intro hde hinv u
    cases hrun : getRunningJob st.jobs a.user_id o.dedupErr with
    | some k =>
      unfold syncAccount
      rw [hrun]
      exact hinv u
    | none =>
      have hempty : activeJobsFor st.jobs a.user_id = [] := by
        rw [getRunningJob, hde] at hrun
        simp only [Bool.false_eq_true, if_false] at hrun
        exact (latestByCreated_eq_none_iff _).mp hrun
      cases hins : o.insertOk with
      | false =>
        unfold syncAccount
        rw [hrun]
        simp only [createSyncJob, hins, Bool.false_eq_true, if_false]
        exact hinv u
      | true =>
        unfold syncAccount
        rw [hrun]
        simp only [createSyncJob, hins, if_true]
        have hkey : ∀ v, (activeJobsFor
            (st.jobs ++ [⟨st.nextId, a.user_id, "tripadvisor", JobStatus.pending,
              false, 0, 0, st.now, some st.now, none, none⟩]) v).length ≤ 1 := by
          intro v
          unfold activeJobsFor
          rw [List.filter_append]
          by_cases hv : v = a.user_id
          · subst hv
            unfold activeJobsFor at hempty
            rw [hempty]
            simp [JobStatus.isActive]
          · have hnil : List.filter (fun (j : SyncJob) =>
                j.tour_operator_id = v && j.platform = "tripadvisor" && j.status.isActive)
                [⟨st.nextId, a.user_id, "tripadvisor", JobStatus.pending,
                  false, 0, 0, st.now, some st.now, none, none⟩] = [] := by
              simp only [List.filter_cons, List.filter_nil]
              split
              · next hcond =>
                simp only [Bool.and_eq_true, decide_eq_true_eq] at hcond
                exact absurd hcond.1.1.symm hv
              · rfl
            rw [hnil, List.append_nil]
            exact hinv v
        cases hw : o.workerOk with
        | true =>
          simp only [if_true]
          exact hkey u
        | false =>
          simp only [Bool.false_eq_true, if_false, markJobFailed]
          refine Nat.le_trans (Nat.le_trans (Nat.le_of_eq rfl)
            (length_filter_map_le _ _ ?_ _)) (hkey u)
          intro j hact
          by_cases hid : j.id = st.nextId
          · rw [if_pos hid] at hact
            simp [JobStatus.isActive] at hact
          · rwa [if_neg hid] at hact

/-- Witness for C1 (amended): a dispatch that finds an existing pending
job for `u1` leaves the store unchanged, and a dispatch against a store
with one pending job for another account keeps every account at one
active job at most. -/
theorem syncAccount_dedup_invariant_witness :
    (syncAccount ⟨false, true, true⟩ ⟨"u1", "Co", some "loc", some 1, none, none⟩
        ⟨[], [⟨0, "u1", "tripadvisor", JobStatus.pending, false, 0, 0, 0, some 0,
          none, none⟩], 1, 5⟩
      = ⟨[], [⟨0, "u1", "tripadvisor", JobStatus.pending, false, 0, 0, 0, some 0,
          none, none⟩], 1, 5⟩)
    ∧ (activeJobsFor
        (syncAccount ⟨false, true, true⟩ ⟨"u1", "Co", some "loc", some 1, none, none⟩
          ⟨[], [⟨0, "u2", "tripadvisor", JobStatus.pending, false, 0, 0, 0, some 0,
            none, none⟩], 1, 5⟩).jobs "u1").length ≤ 1 :=
  ⟨(syncAccount_dedup_invariant ⟨false, true, true⟩
      ⟨"u1", "Co", some "loc", some 1, none, none⟩
      ⟨[], [⟨0, "u1", "tripadvisor", JobStatus.pending, false, 0, 0, 0, some 0,
        none, none⟩], 1, 5⟩).1 (by decide),
   (syncAccount_dedup_invariant ⟨false, true, true⟩
      ⟨"u1", "Co", some "loc", some 1, none, none⟩
      ⟨[], [⟨0, "u2", "tripadvisor", JobStatus.pending, false, 0, 0, 0, some 0,
        none, none⟩], 1, 5⟩).2 rfl
      (fun u => Nat.le_trans (List.length_filter_le _ _) (by simp)) "u1"⟩

theorem runBatchLoop_no_throw (o : SweepOracle) (h : o.throwAt = none) :
    ∀ (batches : List (List Profile)) (idx : Nat) (st : StoreState),
      (runBatchLoop o batches idx st).2.1 = batches.map (List.map Profile.user_id)
      ∧ (runBatchLoop o batches idx st).2.2.1 = (batches.length - 1) * 30000
      ∧ (runBatchLoop o batches idx st).2.2.2 = false := by
  intro batches
  induction batches with
  | nil => intro idx st; exact ⟨rfl, rfl, rfl⟩
  | cons b rest ih =>
    intro idx st
    obtain ⟨ih1, ih2, ih3⟩ := ih (idx + 1) (processBatch o b st)
    simp only [runBatchLoop, h, reduceCtorEq, if_false]
    refine ⟨by rw [List.map_cons, ih1], ?_, ih3⟩
    rw [ih2]
    cases hr : rest with
    | nil => simp
    | cons r rs =>
      simp only [List.isEmpty_cons, Bool.false_eq_true, if_false, List.length_cons]
      have : (r :: rs).length = rs.length + 1 := List.length_cons r rs
      omega

/-- C4: a sweep over `N > 0` eligible accounts (no store fetch failure, no
interrupting exception) processes exactly the batches produced by
`chunkArray` with batch size 5, in order; every batch has at most 5
accounts and every batch except the last exactly 5; there are `ceil(N/5)`
batches and the 30-second pacing delay is taken exactly once after every
batch but the last, for a total of `(ceil(N/5) - 1) * 30000` ms. -/
theorem runDailySync_batching (o : SweepOracle) (s : SchedState)
    (hrun : s.isRunning = false) (hfetch : o.fetchOk = true)
    (hthrow : o.throwAt = none)
    (hN : 0 < (eligibleProfiles s.store.profiles).length) :
    (runDailySync o s).2.batchLog
      = (chunkArray (eligibleProfiles s.store.profiles) 5).map (List.map Profile.user_id)
    ∧ (runDailySync o s).2.batchLog.length
      = ((eligibleProfiles s.store.profiles).length + 4) / 5
    ∧ (∀ b ∈ (runDailySync o s).2.batchLog, b.length ≤ 5)
    ∧ (∀ b ∈ (runDailySync o s).2.batchLog.dropLast, b.length = 5)
    ∧ (runDailySync o s).2.sleepMs
      = (((eligibleProfiles s.store.profiles).length + 4) / 5 - 1) * 30000 := by
  have hne : (eligibleProfiles s.store.profiles).isEmpty = false := by
    cases hE : eligibleProfiles s.store.profiles with
    | nil => rw [hE] at hN; simp at hN
    | cons a as => rfl
  have hlen : (chunkArray (eligibleProfiles s.store.profiles) 5).length
      = ((eligibleProfiles s.store.profiles).length + 4) / 5 := by
    rw [chunkArray_length _ 5 (by decide)]
    congr 1
  obtain ⟨h1, h2, h3⟩ := runBatchLoop_no_throw o hthrow
    (chunkArray (eligibleProfiles s.store.profiles) 5) 0 s.store
  simp only [runDailySync, hrun, Bool.false_eq_true, if_false, sweepBodyState,
    hfetch, if_true, hne]
  refine ⟨h1, by rw [h1, List.length_map, hlen], ?_, ?_, ?_⟩
  · intro b hb
    rw [h1] at hb
    obtain ⟨c, hc, rfl⟩ := List.mem_map.mp hb
    rw [List.length_map]
    exact chunkArray_mem_length_le (by decide) hc
  · intro b hb
    rw [h1, ← List.map_dropLast] at hb
    obtain ⟨c, hc, rfl⟩ := List.mem_map.mp hb
    rw [List.length_map]
    exact chunkArray_dropLast_length (by decide) hc
  · rw [h3] at *
    rw [h2, hlen]

/-- Witness for C4: six eligible accounts give the two chunked batches
and one 30-second pause. -/
theorem runDailySync_batching_witness :
    (runDailySync
        { fetchOk := true, throwAt := none, perAccount := fun _ => ⟨false, true, true⟩ }
        (initialScheduler
          ⟨[⟨"u1", "A", some "l1", some 1, none, none⟩,
            ⟨"u2", "B", some "l2", some 1, none, none⟩,
            ⟨"u3", "C", some "l3", some 1, none, none⟩,
            ⟨"u4", "D", some "l4", some 1, none, none⟩,
            ⟨"u5", "E", some "l5", some 1, none, none⟩,
            ⟨"u6", "F", some "l6", some 1, none, none⟩], [], 0, 0⟩)).2.batchLog
      = (chunkArray (eligibleProfiles
          [⟨"u1", "A", some "l1", some 1, none, none⟩,
           ⟨"u2", "B", some "l2", some 1, none, none⟩,
           ⟨"u3", "C", some "l3", some 1, none, none⟩,
           ⟨"u4", "D", some "l4", some 1, none, none⟩,
           ⟨"u5", "E", some "l5", some 1, none, none⟩,
           ⟨"u6", "F", some "l6", some 1, none, none⟩]) 5).map (List.map Profile.user_id)
    ∧ (runDailySync
        { fetchOk := true, throwAt := none, perAccount := fun _ => ⟨false, true, true⟩ }
        (initialScheduler
          ⟨[⟨"u1", "A", some "l1", some 1, none, none⟩,
            ⟨"u2", "B", some "l2", some 1, none, none⟩,
            ⟨"u3", "C", some "l3", some 1, none, none⟩,
            ⟨"u4", "D", some "l4", some 1, none, none⟩,
            ⟨"u5", "E", some "l5", some 1, none, none⟩,
            ⟨"u6", "F", some "l6", some 1, none, none⟩], [], 0, 0⟩)).2.sleepMs
      = (((eligibleProfiles
          [⟨"u1", "A", some "l1", some 1, none, none⟩,
           ⟨"u2", "B", some "l2", some 1, none, none⟩,
           ⟨"u3", "C", some "l3", some 1, none, none⟩,
           ⟨"u4", "D", some "l4", some 1, none, none⟩,
           ⟨"u5", "E", some "l5", some 1, none, none⟩,
           ⟨"u6", "F", some "l6", some 1, none, none⟩]).length + 4) / 5 - 1) * 30000 :=
  ⟨(runDailySync_batching
      { fetchOk := true, throwAt := none, perAccount := fun _ => ⟨false, true, true⟩ }
      (initialScheduler
        ⟨[⟨"u1", "A", some "l1", some 1, none, none⟩,
          ⟨"u2", "B", some "l2", some 1, none, none⟩,
          ⟨"u3", "C", some "l3", some 1, none, none⟩,
          ⟨"u4", "D", some "l4", some 1, none, none⟩,
          ⟨"u5", "E", some "l5", some 1, none, none⟩,
          ⟨"u6", "F", some "l6", some 1, none, none⟩], [], 0, 0⟩)
      rfl rfl rfl (by decide)).1,
   (runDailySync_batching
      { fetchOk := true, throwAt := none, perAccount := fun _ => ⟨false, true, true⟩ }
      (initialScheduler
        ⟨[⟨"u1", "A", some "l1", some 1, none, none⟩,
          ⟨"u2", "B", some "l2", some 1, none, none⟩,
          ⟨"u3", "C", some "l3", some 1, none, none⟩,
          ⟨"u4", "D", some "l4", some 1, none, none⟩,
          ⟨"u5", "E", some "l5", some 1, none, none⟩,
          ⟨"u6", "F", some "l6", some 1, none, none⟩], [], 0, 0⟩)
      rfl rfl rfl (by decide)).2.2.2.2⟩

/-- Counterexample to C6 as stated: account `u1` has a non-null external
location id but a NULL `tripadvisor_url_locked_at`, so it fails the
sweep's eligibility predicate (`eligibleProfiles` excludes it) — yet
`triggerManualSync("u1")` dispatches it and a job row is created, because
the manual-sync lookup filters only on the location id. -/
theorem triggerManualSync_eligibility_counterexample :
    eligibleProfiles [⟨"u1", "Co", some "loc", none, none, none⟩] = []
    ∧ (triggerManualSyncUser ⟨false, true, true⟩ "u1"
        ⟨[⟨"u1", "Co", some "loc", none, none, none⟩], [], 0, 50⟩).2 = true
    ∧ (triggerManualSyncUser ⟨false, true, true⟩ "u1"
        ⟨[⟨"u1", "Co", some "loc", none, none, none⟩], [], 0, 50⟩).1.jobs.length
      = 1 := by
  decide

/-- C6 (amended): `triggerManualSync(accountId)` looks up the single
account by id requiring only a non-null external-location identifier —
the sweep's additional non-null lock-timestamp condition is NOT enforced
by the manual path — and runs `syncAccount` on it directly, bypassing
batching; for every account whose external-location identifier is null
(or when no account matches), no dispatch is performed and no job row is
created. -/
theorem triggerManualSync_lookup (o : AccountOracle) (userId : String)
    (st : StoreState) :
    ((∀ p ∈ st.profiles, p.user_id = userId → p.tripadvisor_location_id = none) →
      triggerManualSyncUser o userId st = (st, false))
    ∧ (∀ p, manualLookup st.profiles userId = some p →
        triggerManualSyncUser o userId st = (syncAccount o p st, true)) := by
  constructor
  · intro h
    have hfil : st.profiles.filter (fun (p : Profile) =>
        p.user_id = userId && p.tripadvisor_location_id ≠ none) = [] := by
      rw [List.filter_eq_nil_iff]
      intro p hp
      simp only [Bool.and_eq_true, decide_eq_true_eq, not_and]
      intro hu
      simp [h p hp hu]
    unfold triggerManualSyncUser manualLookup
    rw [hfil]
  · intro p hp
    unfold triggerManualSyncUser
    rw [hp]

/-- Witness for C6 (amended): a store whose only matching account lacks a
location id yields no dispatch, and a store with a located account runs
`syncAccount` on it directly. -/
theorem triggerManualSync_lookup_witness :
    triggerManualSyncUser ⟨false, true, true⟩ "u1"
      ⟨[⟨"u1", "Co", none, some 1, none, none⟩], [], 0, 50⟩
      = (⟨[⟨"u1", "Co", none, some 1, none, none⟩], [], 0, 50⟩, false)
    ∧ triggerManualSyncUser ⟨false, true, true⟩ "u2"
        ⟨[⟨"u2", "Co", some "loc", some 1, none, none⟩], [], 0, 50⟩
      = (syncAccount ⟨false, true, true⟩ ⟨"u2", "Co", some "loc", some 1, none, none⟩
          ⟨[⟨"u2", "Co", some "loc", some 1, none, none⟩], [], 0, 50⟩, true) :=
  ⟨(triggerManualSync_lookup ⟨false, true, true⟩ "u1"
      ⟨[⟨"u1", "Co", none, some 1, none, none⟩], [], 0, 50⟩).1 (by decide),
   (triggerManualSync_lookup ⟨false, true, true⟩ "u2"
      ⟨[⟨"u2", "Co", some "loc", some 1, none, none⟩], [], 0, 50⟩).2
     ⟨"u2", "Co", some "loc", some 1, none, none⟩ (by decide)⟩

/-- Counterexample to C8 as stated: a tripadvisor job with status
`completed` whose `completed_at` falls on the current UTC day but whose
`created_at` falls on the previous day is NOT counted by
`getSyncStats().completedToday` (which filters on `created_at`), although
the claimed "jobs completed on the current UTC calendar day" semantics
(`specCompletedToday`) counts it. -/
theorem getSyncStats_completedToday_counterexample :
    (getSyncStats ⟨[], [⟨0, "u1", "tripadvisor", JobStatus.completed, false, 0, 0,
        86400 * 10 - 5, some 0, some (86400 * 10 + 50), none⟩], 1,
        86400 * 10 + 100⟩).completedToday = 0
    ∧ specCompletedToday
        [⟨0, "u1", "tripadvisor", JobStatus.completed, false, 0, 0,
          86400 * 10 - 5, some 0, some (86400 * 10 + 50), none⟩]
        (86400 * 10 + 100) = 1 := by
  decide

/-- C8 (amended): the Status Reporter returns the four counts
`totalAccounts`, `activeJobs`, `completedToday`, `failedToday`, where the
two "today" counts select tripadvisor jobs of the respective status whose
CREATION time (`created_at`) lies in `[today 00:00:00Z, today 23:59:59Z)`
of the current UTC day — not their completion time.  Given 3 eligible
accounts (a fourth lacks a location id), 1 pending tripadvisor job (plus
a pending job of another platform, not counted), 2 completed jobs created
today (a third completed job created yesterday is not counted), and a
failed job created yesterday (not counted), `getSyncStats` returns
`{totalAccounts := 3, activeJobs := 1, completedToday := 2,
failedToday := 0}`. -/
theorem getSyncStats_counts :
    getSyncStats
      ⟨[⟨"u1", "A", some "l1", some 1, none, none⟩,
        ⟨"u2", "B", some "l2", some 2, none, none⟩,
        ⟨"u3", "C", some "l3", some 3, none, none⟩,
        ⟨"u4", "D", none, some 4, none, none⟩],
       [⟨1, "u1", "tripadvisor", JobStatus.pending, false, 0, 0,
          86400 * 10 + 10, some (86400 * 10 + 10), none, none⟩,
        ⟨2, "u2", "tripadvisor", JobStatus.completed, false, 0, 0,
          86400 * 10 + 20, some (86400 * 10 + 20), some (86400 * 10 + 30), none⟩,
        ⟨3, "u3", "tripadvisor", JobStatus.completed, false, 0, 0,
          86400 * 10 + 40, some (86400 * 10 + 40), some (86400 * 10 + 60), none⟩,
        ⟨4, "u3", "tripadvisor", JobStatus.completed, false, 0, 0,
          86400 * 9 + 100, some (86400 * 9 + 100), some (86400 * 9 + 200), none⟩,
        ⟨5, "u2", "tripadvisor", JobStatus.failed, false, 0, 0,
          86400 * 9 + 300, some (86400 * 9 + 300), some (86400 * 9 + 400),
          some "boom"⟩,
        ⟨6, "u1", "google", JobStatus.pending, false, 0, 0,
          86400 * 10 + 70, some (86400 * 10 + 70), none, none⟩],
       7, 86400 * 10 + 500⟩
      = ⟨3, 1, 2, 0⟩ := by
  decide

/-- C5: within a batch, dispatch is settle-all, not fail-fast.  For a
batch of three distinct accounts over an empty job table where only the
middle account's worker dispatch call fails, the first and third accounts
still get successfully created job rows (status `pending`), and the
middle account's job row is marked `failed` carrying the non-empty error
message recorded by `markJobFailed`. -/
theorem processBatch_settle_all (o : SweepOracle) (pa pb pc : Profile)
    (st : StoreState) (hjobs : st.jobs = [])
    (hab : pa.user_id ≠ pb.user_id) (hac : pa.user_id ≠ pc.user_id)
    (hbc : pb.user_id ≠ pc.user_id)
    (hoa : o.perAccount pa.user_id = ⟨false, true, true⟩)
    (hob : o.perAccount pb.user_id = ⟨false, true, false⟩)
    (hoc : o.perAccount pc.user_id = ⟨false, true, true⟩) :
    (processBatch o [pa, pb, pc] st).jobs =
      [⟨st.nextId, pa.user_id, "tripadvisor", JobStatus.pending, false, 0, 0,
         st.now, some st.now, none, none⟩,
       ⟨st.nextId + 1, pb.user_id, "tripadvisor", JobStatus.failed, false, 0, 0,
         st.now, some st.now, some st.now, some "Failed to trigger worker sync"⟩,
       ⟨st.nextId + 2, pc.user_id, "tripadvisor", JobStatus.pending, false, 0, 0,
         st.now, some st.now, none, none⟩]
    ∧ "Failed to trigger worker sync" ≠ "" := by
  refine ⟨?_, by decide⟩
  simp [processBatch, syncAccount, getRunningJob, activeJobsFor, latestByCreated,
    latestStep, createSyncJob, markJobFailed, hjobs, hab, hac, hbc, hoa, hob, hoc,
    Ne.symm hab, Ne.symm hac, Ne.symm hbc, JobStatus.isActive]

/-- Witness for C5 at three concrete accounts with the middle worker call
failing. -/
theorem processBatch_settle_all_witness :
    (processBatch
        { fetchOk := true, throwAt := none,
          perAccount := fun u => if u = "b" then ⟨false, true, false⟩
            else ⟨false, true, true⟩ }
        [⟨"a", "A", some "la", some 1, none, none⟩,
         ⟨"b", "B", some "lb", some 1, none, none⟩,
         ⟨"c", "C", some "lc", some 1, none, none⟩]
        ⟨[], [], 0, 9⟩).jobs =
      [⟨0, "a", "tripadvisor", JobStatus.pending, false, 0, 0, 9, some 9, none, none⟩,
       ⟨1, "b", "tripadvisor", JobStatus.failed, false, 0, 0, 9, some 9, some 9,
         some "Failed to trigger worker sync"⟩,
       ⟨2, "c", "tripadvisor", JobStatus.pending, false, 0, 0, 9, some 9, none, none⟩]
    ∧ "Failed to trigger worker sync" ≠ "" :=
  processBatch_settle_all
    { fetchOk := true, throwAt := none,
      perAccount := fun u => if u = "b" then ⟨false, true, false⟩
        else ⟨false, true, true⟩ }
    ⟨"a", "A", some "la", some 1, none, none⟩
    ⟨"b", "B", some "lb", some 1, none, none⟩
    ⟨"c", "C", some "lc", some 1, none, none⟩
    ⟨[], [], 0, 9⟩ rfl (by decide) (by decide) (by decide)
    (by decide) (by decide) (by decide)

end SyncScheduler
